import Mathlib

/-!
Verification of the schema-driven validation and dispatch layer of the
FastAPI application in `src/main.py`.

The schemas, field constraints, enum labels, record store, handler bodies
and response details are embedded from `src/main.py`.  The generic
validation engine and dispatch pipeline (field iteration, violation
batching, output-schema projection, 422/404 response shapes) are the
FastAPI/pydantic machinery, which is not part of this repository; those are
modelled from the specification and carry doc comments saying so.
-/

namespace FastApi

/-- HairColor enum from `src/main.py` lines 18-24: six string-valued labels. -/
inductive HairColor
  | white
  | brown
  | black
  | blonde
  | red
  | blue
deriving DecidableEq

/-- The string value backing each HairColor label (value equals the name). -/
def HairColor.label : HairColor → String
  | .white => "white"
  | .brown => "brown"
  | .black => "black"
  | .blonde => "blonde"
  | .red => "red"
  | .blue => "blue"

/-- The closed set of labels accepted for a HairColor value. -/
def hairColorLabels : List String :=
  ["white", "brown", "black", "blonde", "red", "blue"]

/-- Case-sensitive lookup of a raw string against the HairColor labels,
as pydantic coerces a raw string into the string-valued enum. -/
def hairColorOfString (s : String) : Option HairColor :=
  if s = "white" then some .white
  else if s = "brown" then some .brown
  else if s = "black" then some .black
  else if s = "blonde" then some .blonde
  else if s = "red" then some .red
  else if s = "blue" then some .blue
  else none

/-- Modelled from the spec: the violation taxonomy of section 7
(`MissingRequiredField`, `ConstraintViolation{kind}`); only the kinds the
declared schemas can produce are needed. -/
inductive ViolationKind
  | missingRequiredField
  | lengthConstraint
  | numericBound
  | enumMembership
deriving DecidableEq

/-- Modelled from the spec: a Violation records the field path and the
constraint that failed. -/
structure Violation where
  fieldPath : String
  kind : ViolationKind
deriving DecidableEq

/-- Modelled from the spec: splicing a nested violation path under its
parent field name (dot-separated paths). -/
def Violation.under (parent : String) (v : Violation) : Violation :=
  ⟨parent ++ "." ++ v.fieldPath, v.kind⟩

/-- String length constraint: `min_length ≤ len ≤ max_length`, measured on
the raw text. -/
def lengthOk (lo hi : Nat) (s : String) : Bool :=
  decide (lo ≤ s.length) && decide (s.length ≤ hi)

/-- Strict numeric bound constraint `gt < v` and `v < lt`, exactly as the
`gt=`/`lt=` parameters declare. -/
def gtLtOk (gt lt v : Int) : Bool :=
  decide (gt < v) && decide (v < lt)

/-- Raw values bound for the fields of the Person body schema
(`src/main.py` lines 49-81): `none` means the field is absent from the
request.  Integers and booleans arrive already parsed from JSON. -/
structure RawPerson where
  first_name : Option String
  last_name : Option String
  age : Option Int
  hair_color : Option String
  is_married : Option Bool
  password : Option String
deriving DecidableEq

/-- Modelled from the spec: the per-field check for a required string field
with length bounds — required and absent emits a MissingRequiredField
Violation, otherwise the first failing constraint wins and at most one
Violation is emitted for the field. -/
def checkRequiredStr (field : String) (lo hi : Nat) : Option String → Option Violation
  | none => some ⟨field, .missingRequiredField⟩
  | some s => if lengthOk lo hi s then none else some ⟨field, .lengthConstraint⟩

/-- The check for `age: int = Field(..., gt=0, lt=115)`
(`src/main.py` lines 60-64). -/
def checkPersonAge : Option Int → Option Violation
  | none => some ⟨"age", .missingRequiredField⟩
  | some a => if gtLtOk 0 115 a then none else some ⟨"age", .numericBound⟩

/-- The check for `hair_color: Optional[HairColor] = Field(default=None)`
(`src/main.py` line 65): absence defaults to None, a supplied raw string
must be a member of the enum label set, case-sensitively. -/
def checkHairColorField : Option String → Option Violation
  | none => none
  | some s =>
      if (hairColorOfString s).isSome then none
      else some ⟨"hair_color", .enumMembership⟩

/-- The per-field checks of the Person schema in declaration order:
first_name, last_name, age, hair_color, is_married (optional boolean, no
constraint), password (`src/main.py` lines 49-81). -/
def personFieldChecks : List (RawPerson → Option Violation) :=
  [ fun r => checkRequiredStr "first_name" 1 50 r.first_name,
    fun r => checkRequiredStr "last_name" 1 50 r.last_name,
    fun r => checkPersonAge r.age,
    fun r => checkHairColorField r.hair_color,
    fun _ => none,
    fun r => checkRequiredStr "password" 8 150 r.password ]

/-- Modelled from the spec: the Validation Engine iterates every declared
field in declaration order and collects every failure, never stopping at
the first. -/
def personViolations (r : RawPerson) : List Violation :=
  personFieldChecks.filterMap (fun c => c r)

/-- The validated Person model (`src/main.py` lines 80-81): PersonBase
fields plus password. -/
structure Person where
  first_name : String
  last_name : String
  age : Int
  hair_color : Option HairColor
  is_married : Option Bool
  password : String
deriving DecidableEq

/-- Modelled from the spec: the ValidatedModel construction step —
copying every coerced or defaulted value.  Only invoked by the dispatcher
when the violation list is empty, so every `getD` fallback is dead code. -/
def mkPerson (r : RawPerson) : Person :=
  { first_name := r.first_name.getD ""
    last_name := r.last_name.getD ""
    age := r.age.getD 0
    hair_color := r.hair_color.bind hairColorOfString
    is_married := r.is_married
    password := r.password.getD "" }

/-- Raw values bound for the Location body schema
(`src/main.py` lines 27-46). -/
structure RawLocation where
  city : Option String
  state : Option String
  country : Option String
deriving DecidableEq

/-- The per-field checks of the Location schema in declaration order:
city, state, country, each a required string with `min_length=1,
max_length=20`. -/
def locationFieldChecks : List (RawLocation → Option Violation) :=
  [ fun r => checkRequiredStr "city" 1 20 r.city,
    fun r => checkRequiredStr "state" 1 20 r.state,
    fun r => checkRequiredStr "country" 1 20 r.country ]

/-- Modelled from the spec: violation collection for the Location schema,
batching every failing field. -/
def locationViolations (r : RawLocation) : List Violation :=
  locationFieldChecks.filterMap (fun c => c r)

/-- The validated Location model (`src/main.py` lines 27-46). -/
structure Location where
  city : String
  state : String
  country : String
deriving DecidableEq

/-- Modelled from the spec: ValidatedModel construction for Location;
only invoked when its violation list is empty. -/
def mkLocation (r : RawLocation) : Location :=
  { city := r.city.getD ""
    state := r.state.getD ""
    country := r.country.getD "" }

/-- A JSON value, the shape of serialized response bodies. -/
inductive Json
  | str (s : String)
  | int (n : Int)
  | bool (b : Bool)
  | num (q : ℚ)
  | null
  | obj (fields : List (String × Json))

/-- The top-level keys of a serialized JSON object. -/
def Json.objKeys : Json → List String
  | .obj fs => fs.map Prod.fst
  | _ => []

/-- Serialization of an optional HairColor value. -/
def hairColorJson : Option HairColor → Json
  | none => .null
  | some c => .str c.label

/-- Serialization of an optional boolean value. -/
def optBoolJson : Option Bool → Json
  | none => .null
  | some b => .bool b

/-- The PersonOut output schema (`src/main.py` lines 84-85): exactly the
PersonBase fields, no password. -/
structure PersonOut where
  first_name : String
  last_name : String
  age : Int
  hair_color : Option HairColor
  is_married : Option Bool
deriving DecidableEq

/-- Modelled from the spec: output projection — fields not present in the
output schema are dropped from the handler return value. -/
def PersonOut.ofPerson (p : Person) : PersonOut :=
  { first_name := p.first_name
    last_name := p.last_name
    age := p.age
    hair_color := p.hair_color
    is_married := p.is_married }

/-- The field names of the PersonOut output schema in declaration order. -/
def personOutFields : List String :=
  ["first_name", "last_name", "age", "hair_color", "is_married"]

/-- Serialization of a PersonOut instance to JSON object entries. -/
def PersonOut.serialize (p : PersonOut) : List (String × Json) :=
  [ ("first_name", .str p.first_name),
    ("last_name", .str p.last_name),
    ("age", .int p.age),
    ("hair_color", hairColorJson p.hair_color),
    ("is_married", optBoolJson p.is_married) ]

/-- The `person.dict()` call of `src/main.py` line 188: every Person field
in declaration order, password included. -/
def Person.dict (p : Person) : List (String × Json) :=
  [ ("first_name", .str p.first_name),
    ("last_name", .str p.last_name),
    ("age", .int p.age),
    ("hair_color", hairColorJson p.hair_color),
    ("is_married", optBoolJson p.is_married),
    ("password", .str p.password) ]

/-- The `location.dict()` call of `src/main.py` line 189. -/
def Location.dict (l : Location) : List (String × Json) :=
  [ ("city", .str l.city),
    ("state", .str l.state),
    ("country", .str l.country) ]

/-- Modelled from the spec: the outcomes of dispatching one request —
a success with the declared status code and projected body, a structured
422-equivalent report carrying the full violation list, a structured
404-equivalent domain-rule failure with its fixed detail message, or an
unhandled error raised inside the handler itself. -/
inductive Response
  | success (status : Nat) (body : Json)
  | validationFailure (violations : List Violation)
  | domainFailure (status : Nat) (detail : String)
  | handlerError

/-- Modelled from the spec: the pipeline for POST /person/new
(`src/main.py` lines 103-121) — validate the Person body, on violations
return them all, otherwise call the handler (which returns the person) and
project the result through the PersonOut output schema with status 201. -/
def dispatchCreatePerson (r : RawPerson) : Response :=
  match personViolations r with
  | [] => .success 201 (.obj ((PersonOut.ofPerson (mkPerson r)).serialize))
  | errs => .validationFailure errs

/-- The LoginOut output schema (`src/main.py` lines 88-89): a username
with `max_length=20`. -/
structure LoginOut where
  username : String
deriving DecidableEq

/-- Constructing a LoginOut instance validates its own `max_length=20`
constraint (`src/main.py` line 89); failure raises inside the handler. -/
def mkLoginOut (u : String) : Except Violation LoginOut :=
  if u.length ≤ 20 then .ok ⟨u⟩
  else .error ⟨"username", .lengthConstraint⟩

/-- Serialization of a LoginOut instance. -/
def LoginOut.serialize (o : LoginOut) : List (String × Json) :=
  [("username", .str o.username)]

/-- Modelled from the spec: input binding for POST /login
(`src/main.py` line 205) — `username` and `password` are required form
fields with no further declared constraint. -/
def loginViolations (username password : Option String) : List Violation :=
  (match username with
    | none => [(⟨"username", .missingRequiredField⟩ : Violation)]
    | some _ => []) ++
  (match password with
    | none => [(⟨"password", .missingRequiredField⟩ : Violation)]
    | some _ => [])

/-- Modelled from the spec: the pipeline for POST /login
(`src/main.py` lines 199-206) — validate the form fields, then the handler
constructs `LoginOut(username=username)`; a constraint failure in that
construction is an error inside the handler, not an input-validation
report. -/
def dispatchLogin (username password : Option String) : Response :=
  match loginViolations username password with
  | [] =>
      match mkLoginOut (username.getD "") with
      | .ok o => .success 200 (.obj o.serialize)
      | .error _ => .handlerError
  | errs => .validationFailure errs

/-- The in-memory record store `persons = [1, 2, 3, 4, 5]`
(`src/main.py` line 170). -/
def persons : List Int := [1, 2, 3, 4, 5]

/-- The check for the path parameter
`person_id: int = Path(..., gt=0)` (`src/main.py` lines 179-184). -/
def checkPersonId (pid : Int) : Option Violation :=
  if 0 < pid then none else some ⟨"person_id", .numericBound⟩

/-- Modelled from the spec: the combined violation list for
PUT /person/:person_id — path parameter plus both body schemas, nested
body violations spliced under their parent field names. -/
def updatePersonViolations (pid : Int) (rp : RawPerson) (rl : RawLocation) :
    List Violation :=
  (checkPersonId pid).toList ++
  (personViolations rp).map (Violation.under "person") ++
  (locationViolations rl).map (Violation.under "location")

/-- The handler body of `update_person` (`src/main.py` lines 178-196):
build the union of `person.dict()` and `location.dict()`, raise a 404 with
the fixed detail when the identifier is not in the record store, otherwise
return the union with status 200 and no output-schema projection. -/
def updatePersonHandler (pid : Int) (p : Person) (l : Location) : Response :=
  let results := p.dict ++ l.dict
  if pid ∈ persons then .success 200 (.obj results)
  else .domainFailure 404 "This person does not exist."

/-- Modelled from the spec: the pipeline for PUT /person/:person_id —
strictly linear, the handler runs only when validation produced no
violations. -/
def dispatchUpdatePerson (pid : Int) (rp : RawPerson) (rl : RawLocation) :
    Response :=
  match updatePersonViolations pid rp rl with
  | [] => updatePersonHandler pid (mkPerson rp) (mkLocation rl)
  | errs => .validationFailure errs

/-- Raw query parameters of GET /person/detail
(`src/main.py` lines 131-147). -/
structure RawShowPersonQuery where
  name : Option String
  age : Option String
deriving DecidableEq

/-- The check for the optional query parameter
`name: Optional[str] = Query(None, min_length=1, max_length=50)`. -/
def checkShowName : Option String → Option Violation
  | none => none
  | some s => if lengthOk 1 50 s then none else some ⟨"name", .lengthConstraint⟩

/-- The check for the required query parameter `age: str = Query(...)`
(`src/main.py` lines 140-145): required, string-typed, no other
constraint, so any supplied token passes. -/
def checkShowAge : Option String → Option Violation
  | none => some ⟨"age", .missingRequiredField⟩
  | some _ => none

/-- Modelled from the spec: violation collection for the
GET /person/detail query parameters in declaration order. -/
def showPersonViolations (r : RawShowPersonQuery) : List Violation :=
  [checkShowName r.name, checkShowAge r.age].filterMap id

/-- Modelled from the spec: the pipeline for GET /person/detail — the
handler returns `{name: age}` with the raw age string passed through
unchanged (a None name serializes as the key "null"). -/
def dispatchShowPerson (r : RawShowPersonQuery) : Response :=
  match showPersonViolations r with
  | [] => .success 200 (.obj [(r.name.getD "null", .str (r.age.getD ""))])
  | errs => .validationFailure errs

/-- An uploaded file part: filename, declared content type, byte stream
(`image: UploadFile = File(...)`, `src/main.py` line 245). -/
structure UploadFile where
  filename : String
  contentType : String
  content : List Nat

/-- Round-half-to-even on an exact rational, the tie-breaking rule of the
round builtin applied by the handler; the float division of the source is
idealized as exact rational division. -/
def roundHalfToEven (q : ℚ) : ℤ :=
  if q - ⌊q⌋ < 1 / 2 then ⌊q⌋
  else if 1 / 2 < q - ⌊q⌋ then ⌊q⌋ + 1
  else if ⌊q⌋ % 2 = 0 then ⌊q⌋ else ⌊q⌋ + 1

/-- The size computation of `src/main.py` line 250:
`round(len(image.file.read())/1024, ndigits=2)` — byte length divided by
1024, rounded to two decimal places. -/
def sizeKb (n : Nat) : ℚ :=
  (roundHalfToEven ((n : ℚ) / 1024 * 100) : ℚ) / 100

/-- The handler body of `post_image` (`src/main.py` lines 244-251). -/
def postImageHandler (f : UploadFile) : Json :=
  .obj [ ("Filename", .str f.filename),
         ("Format", .str f.contentType),
         ("Size(kb)", .num (sizeKb f.content.length)) ]

/-- Modelled from the spec: binding for POST /post-image — the only
constraint is file presence; size and content type are derived attributes,
never validated. -/
def postImageViolations : Option UploadFile → List Violation
  | none => [⟨"image", .missingRequiredField⟩]
  | some _ => []

/-- Modelled from the spec: the pipeline for POST /post-image. -/
def dispatchPostImage : Option UploadFile → Response
  | none => .validationFailure [⟨"image", .missingRequiredField⟩]
  | some f => .success 200 (postImageHandler f)

/-! ## Helper lemmas -/

/-- Membership in the batched Person violation list is exactly: some
per-field check fired. -/
theorem mem_personViolations (r : RawPerson) (v : Violation) :
    v ∈ personViolations r ↔
      checkRequiredStr "first_name" 1 50 r.first_name = some v ∨
      checkRequiredStr "last_name" 1 50 r.last_name = some v ∨
      checkPersonAge r.age = some v ∨
      checkHairColorField r.hair_color = some v ∨
      checkRequiredStr "password" 8 150 r.password = some v := by
  simp [personViolations, personFieldChecks, List.mem_filterMap]

/-- A violation emitted by a required-string check carries that field name
as its path. -/
theorem checkRequiredStr_path {f : String} {lo hi : Nat} {o : Option String}
    {v : Violation} (h : checkRequiredStr f lo hi o = some v) :
    v.fieldPath = f := by
  cases o with
  | none =>
      simp only [checkRequiredStr, Option.some.injEq] at h
      rw [← h]
  | some s =>
      simp only [checkRequiredStr] at h
      split at h
      · exact absurd h (by simp)
      · injection h with h
        rw [← h]

/-- A violation emitted by the age check carries the path "age". -/
theorem checkPersonAge_path {o : Option Int} {v : Violation}
    (h : checkPersonAge o = some v) : v.fieldPath = "age" := by
  cases o with
  | none =>
      simp only [checkPersonAge, Option.some.injEq] at h
      rw [← h]
  | some a =>
      simp only [checkPersonAge] at h
      split at h
      · exact absurd h (by simp)
      · injection h with h
        rw [← h]

/-- A violation emitted by the hair-color check carries the path
"hair_color". -/
theorem checkHairColorField_path {o : Option String} {v : Violation}
    (h : checkHairColorField o = some v) : v.fieldPath = "hair_color" := by
  cases o with
  | none => exact absurd h (by simp [checkHairColorField])
  | some s =>
      simp only [checkHairColorField] at h
      split at h
      · exact absurd h (by simp)
      · injection h with h
        rw [← h]

/-- The raw-string enum lookup succeeds exactly on the six labels. -/
theorem hairColorOfString_isSome_iff (s : String) :
    (hairColorOfString s).isSome = true ↔ s ∈ hairColorLabels := by
  simp only [hairColorOfString, hairColorLabels]
  split_ifs with h1 h2 h3 h4 h5 h6 <;> simp_all

/-! ## Claim theorems -/

/-- Claim C1: the validation result for the Person schema reports a
Violation for every broken field, never only the first failure found — a
violation is in the batched list exactly when its per-field check fires,
independently of every other field. -/
theorem validation_reports_every_broken_field (r : RawPerson) (v : Violation) :
    v ∈ personViolations r ↔
      checkRequiredStr "first_name" 1 50 r.first_name = some v ∨
      checkRequiredStr "last_name" 1 50 r.last_name = some v ∨
      checkPersonAge r.age = some v ∨
      checkHairColorField r.hair_color = some v ∨
      checkRequiredStr "password" 8 150 r.password = some v :=
  mem_personViolations r v

/-- Claim C3: the bound on Person.age is strict — age 0 and age 115 each
produce a numeric-bound Violation for the age field, while any integer
strictly between the bounds produces no violation for that field. -/
theorem age_bound_strict (r : RawPerson) (a : Int) (ha : r.age = some a) :
    ((a = 0 ∨ a = 115) →
      (⟨"age", .numericBound⟩ : Violation) ∈ personViolations r) ∧
    (0 < a → a < 115 → ∀ v ∈ personViolations r, v.fieldPath ≠ "age") := by
  constructor
  · intro hcase
    rw [mem_personViolations]
    refine Or.inr (Or.inr (Or.inl ?_))
    rcases hcase with rfl | rfl <;> simp [checkPersonAge, ha, gtLtOk]
  · intro h1 h2 v hv
    rw [mem_personViolations] at hv
    rcases hv with h | h | h | h | h
    · rw [checkRequiredStr_path h]; decide
    · rw [checkRequiredStr_path h]; decide
    · rw [ha] at h
      simp [checkPersonAge, gtLtOk, h1, h2] at h
    · rw [checkHairColorField_path h]; decide
    · rw [checkRequiredStr_path h]; decide

/-- A sample raw Person body, valid except possibly for its age. -/
def rawAge (a : Int) : RawPerson :=
  ⟨some "Luis", some "Berenguer", some a, some "black", some false,
   some "secretpw"⟩

/-- Witness for claim C3 at ages 0, 115 and 24. -/
theorem age_bound_strict_check :
    (⟨"age", .numericBound⟩ : Violation) ∈ personViolations (rawAge 0) ∧
    (⟨"age", .numericBound⟩ : Violation) ∈ personViolations (rawAge 115) ∧
    ∀ v ∈ personViolations (rawAge 24), v.fieldPath ≠ "age" :=
  ⟨(age_bound_strict (rawAge 0) 0 rfl).1 (Or.inl rfl),
   (age_bound_strict (rawAge 115) 115 rfl).1 (Or.inr rfl),
   fun v hv => (age_bound_strict (rawAge 24) 24 rfl).2 (by decide) (by decide) v hv⟩

/-- Claim C6: a supplied hair_color raw value is rejected with an
enum-membership Violation exactly when it is not one of the six labels,
compared case-sensitively. -/
theorem hair_color_case_sensitive (r : RawPerson) (s : String)
    (hs : r.hair_color = some s) :
    (⟨"hair_color", .enumMembership⟩ : Violation) ∈ personViolations r ↔
      s ∉ hairColorLabels := by
  rw [mem_personViolations]
  constructor
  · rintro (h | h | h | h | h)
    · exact absurd (checkRequiredStr_path h) (by decide)
    · exact absurd (checkRequiredStr_path h) (by decide)
    · exact absurd (checkPersonAge_path h) (by decide)
    · rw [hs] at h
      simp only [checkHairColorField] at h
      split at h
      · exact absurd h (by simp)
      · rename_i hcond
        rw [← hairColorOfString_isSome_iff]
        simpa using hcond
    · exact absurd (checkRequiredStr_path h) (by decide)
  · intro hnot
    refine Or.inr (Or.inr (Or.inr (Or.inl ?_)))
    rw [hs]
    have hc : ¬ (hairColorOfString s).isSome = true :=
      fun hsome => hnot ((hairColorOfString_isSome_iff s).mp hsome)
    simp [checkHairColorField, hc]

/-- A sample raw Person body, valid except possibly for its hair color. -/
def rawHair (s : String) : RawPerson :=
  ⟨some "Luis", some "Berenguer", some 24, some s, some false,
   some "secretpw"⟩

/-- Witness for claim C6 on the raw values "Black" and "black". -/
theorem hair_color_case_sensitive_check :
    (⟨"hair_color", .enumMembership⟩ : Violation) ∈
      personViolations (rawHair "Black") ∧
    (⟨"hair_color", .enumMembership⟩ : Violation) ∉
      personViolations (rawHair "black") :=
  ⟨(hair_color_case_sensitive (rawHair "Black") "Black" rfl).mpr (by decide),
   fun hmem =>
     absurd ((hair_color_case_sensitive (rawHair "black") "black" rfl).mp hmem)
       (by decide)⟩

/-- A violation emitted by the name query check carries the path "name". -/
theorem checkShowName_path {o : Option String} {v : Violation}
    (h : checkShowName o = some v) : v.fieldPath = "name" := by
  cases o with
  | none => exact absurd h (by simp [checkShowName])
  | some s =>
      simp only [checkShowName] at h
      split at h
      · exact absurd h (by simp)
      · injection h with h
        rw [← h]

/-- Claim C2: a success response of POST /person/new carries exactly the
PersonOut fields, and a success response of POST /login carries exactly
the LoginOut field; the password present in each handler return value is
never serialized. -/
theorem output_projection_excludes_password (r : RawPerson)
    (u p : Option String) (st st2 : Nat) (body body2 : Json) :
    (dispatchCreatePerson r = .success st body →
      body.objKeys = personOutFields ∧ "password" ∉ body.objKeys) ∧
    (dispatchLogin u p = .success st2 body2 →
      body2.objKeys = ["username"] ∧ "password" ∉ body2.objKeys) := by
  constructor
  · intro h
    unfold dispatchCreatePerson at h
    split at h
    · injection h with h1 h2
      subst h2
      exact ⟨rfl, by simp [Json.objKeys, PersonOut.serialize]⟩
    · exact Response.noConfusion h
  · intro h
    unfold dispatchLogin at h
    split at h
    · split at h
      · rename_i o ho
        injection h with h1 h2
        subst h2
        exact ⟨rfl, by simp [Json.objKeys, LoginOut.serialize]⟩
      · exact Response.noConfusion h
    · exact Response.noConfusion h

/-- Witness for claim C2 on a valid Person body and a valid login form. -/
theorem output_projection_excludes_password_check :
    ((Json.obj ((PersonOut.ofPerson (mkPerson (rawAge 24))).serialize)).objKeys =
        personOutFields ∧
      "password" ∉
        (Json.obj ((PersonOut.ofPerson (mkPerson (rawAge 24))).serialize)).objKeys) ∧
    ((Json.obj [("username", Json.str "luissb")]).objKeys = ["username"] ∧
      "password" ∉ (Json.obj [("username", Json.str "luissb")]).objKeys) :=
  ⟨(output_projection_excludes_password (rawAge 24) (some "luissb")
      (some "secretpw") 201 200
      (Json.obj ((PersonOut.ofPerson (mkPerson (rawAge 24))).serialize))
      (Json.obj [("username", Json.str "luissb")])).1 rfl,
   (output_projection_excludes_password (rawAge 24) (some "luissb")
      (some "secretpw") 201 200
      (Json.obj ((PersonOut.ofPerson (mkPerson (rawAge 24))).serialize))
      (Json.obj [("username", Json.str "luissb")])).2 rfl⟩

/-- Claim C4: with validation passing, PUT /person/:person_id yields the
404 domain failure with its fixed detail exactly when the identifier is
outside the record store, and the declared 200 success when it is a
member. -/
theorem update_person_existence_check (pid : Int) (rp : RawPerson)
    (rl : RawLocation) (hv : updatePersonViolations pid rp rl = []) :
    (pid ∉ persons →
      dispatchUpdatePerson pid rp rl =
        .domainFailure 404 "This person does not exist.") ∧
    (pid ∈ persons →
      ∃ body, dispatchUpdatePerson pid rp rl = .success 200 body) := by
  constructor
  · intro hmem
    simp only [dispatchUpdatePerson, hv, updatePersonHandler]
    rw [if_neg hmem]
  · intro hmem
    refine ⟨.obj ((mkPerson rp).dict ++ (mkLocation rl).dict), ?_⟩
    simp only [dispatchUpdatePerson, hv, updatePersonHandler]
    rw [if_pos hmem]

/-- A valid raw Location body. -/
def rawLocationValid : RawLocation :=
  ⟨some "Elche", some "Alicante", some "Spain"⟩

/-- Witness for claim C4 at identifiers 99 (absent) and 3 (present). -/
theorem update_person_existence_check_holds :
    dispatchUpdatePerson 99 (rawAge 24) rawLocationValid =
      .domainFailure 404 "This person does not exist." ∧
    ∃ body,
      dispatchUpdatePerson 3 (rawAge 24) rawLocationValid =
        .success 200 body :=
  ⟨(update_person_existence_check 99 (rawAge 24) rawLocationValid rfl).1
     (by decide),
   (update_person_existence_check 3 (rawAge 24) rawLocationValid rfl).2
     (by decide)⟩

/-- Claim C5: when any PUT /person/:person_id input fails validation, the
response is the full violation report and is never the 404 domain
failure, whatever the identifier. -/
theorem validation_failure_short_circuits (pid : Int) (rp : RawPerson)
    (rl : RawLocation) (hv : updatePersonViolations pid rp rl ≠ []) :
    dispatchUpdatePerson pid rp rl =
      .validationFailure (updatePersonViolations pid rp rl) ∧
    ∀ st d, dispatchUpdatePerson pid rp rl ≠ .domainFailure st d := by
  have h1 : dispatchUpdatePerson pid rp rl =
      .validationFailure (updatePersonViolations pid rp rl) := by
    unfold dispatchUpdatePerson
    split
    · rename_i heq
      exact absurd heq hv
    · rfl
  exact ⟨h1, fun st d hc => Response.noConfusion (h1.symm.trans hc)⟩

/-- Witness for claim C5: an out-of-bounds age and an identifier absent
from the record store still yield the validation report, not the 404. -/
theorem validation_failure_short_circuits_check :
    dispatchUpdatePerson 99 (rawAge 0) rawLocationValid =
      .validationFailure (updatePersonViolations 99 (rawAge 0) rawLocationValid) ∧
    ∀ st d,
      dispatchUpdatePerson 99 (rawAge 0) rawLocationValid ≠
        .domainFailure st d :=
  validation_failure_short_circuits 99 (rawAge 0) rawLocationValid (by decide)

/-- Claim C9: a successful PUT /person/:person_id response body is the
field-wise union of the Person and Location dictionaries, with no output
projection, so it includes the password field. -/
theorem update_person_no_projection (pid : Int) (rp : RawPerson)
    (rl : RawLocation) (hv : updatePersonViolations pid rp rl = [])
    (hmem : pid ∈ persons) :
    dispatchUpdatePerson pid rp rl =
      .success 200 (.obj ((mkPerson rp).dict ++ (mkLocation rl).dict)) ∧
    "password" ∈ ((mkPerson rp).dict ++ (mkLocation rl).dict).map Prod.fst := by
  constructor
  · simp only [dispatchUpdatePerson, hv, updatePersonHandler]
    rw [if_pos hmem]
  · simp [Person.dict, Location.dict]

/-- Witness for claim C9 at identifier 3 with valid bodies. -/
theorem update_person_no_projection_check :
    dispatchUpdatePerson 3 (rawAge 24) rawLocationValid =
      .success 200
        (.obj ((mkPerson (rawAge 24)).dict ++ (mkLocation rawLocationValid).dict)) ∧
    "password" ∈
      ((mkPerson (rawAge 24)).dict ++
        (mkLocation rawLocationValid).dict).map Prod.fst :=
  update_person_no_projection 3 (rawAge 24) rawLocationValid rfl (by decide)

/-- Claim C10: a username longer than 20 characters passes POST /login
input validation (the form field has no length constraint), and the
failure arises when the handler constructs LoginOut, so the response is a
handler error, never an input-violation report. -/
theorem login_overlong_username_fails_in_handler (u p : String)
    (hu : 20 < u.length) :
    loginViolations (some u) (some p) = [] ∧
    dispatchLogin (some u) (some p) = .handlerError ∧
    ∀ errs, dispatchLogin (some u) (some p) ≠ .validationFailure errs := by
  have h0 : loginViolations (some u) (some p) = [] := rfl
  have hml : mkLoginOut u = .error ⟨"username", .lengthConstraint⟩ := by
    simp [mkLoginOut, Nat.not_le.mpr hu]
  have h1 : dispatchLogin (some u) (some p) = .handlerError := by
    simp only [dispatchLogin, h0, Option.getD, hml]
  exact ⟨h0, h1, fun errs hc => Response.noConfusion (h1.symm.trans hc)⟩

/-- Witness for claim C10 with a 21-character username. -/
theorem login_overlong_username_fails_in_handler_check :
    loginViolations (some "abcdefghijklmnopqrstu") (some "secretpw") = [] ∧
    dispatchLogin (some "abcdefghijklmnopqrstu") (some "secretpw") =
      .handlerError ∧
    ∀ errs,
      dispatchLogin (some "abcdefghijklmnopqrstu") (some "secretpw") ≠
        .validationFailure errs :=
  login_overlong_username_fails_in_handler "abcdefghijklmnopqrstu" "secretpw"
    (by decide)

/-- Claim C7: on GET /person/detail the required age query parameter is
string-typed: any supplied token passes through unchanged, while omitting
it (with a passing name parameter) yields exactly one MissingRequiredField
violation for age. -/
theorem show_person_age_untyped (r : RawShowPersonQuery) :
    (∀ s, r.age = some s →
      ∀ v ∈ showPersonViolations r, v.fieldPath ≠ "age") ∧
    (∀ s, r.age = some s → checkShowName r.name = none →
      dispatchShowPerson r =
        .success 200 (.obj [(r.name.getD "null", .str s)])) ∧
    (r.age = none → checkShowName r.name = none →
      showPersonViolations r = [⟨"age", .missingRequiredField⟩]) := by
  refine ⟨?_, ?_, ?_⟩
  · intro s hs v hv
    simp only [showPersonViolations, List.mem_filterMap, List.mem_cons,
      List.not_mem_nil, or_false, id] at hv
    rcases hv with ⟨o, ho | ho, hvv⟩
    · subst ho
      rw [checkShowName_path hvv]
      decide
    · subst ho
      rw [hs] at hvv
      exact absurd hvv (by simp [checkShowAge])
  · intro s hs hname
    simp [dispatchShowPerson, showPersonViolations, hname, hs, checkShowAge]
  · intro hage hname
    simp [showPersonViolations, hname, hage, checkShowAge]

/-- Witness for claim C7: age "abc" is echoed back as-is, a missing age is
the single violation. -/
theorem show_person_age_untyped_check :
    dispatchShowPerson ⟨none, some "abc"⟩ =
      .success 200 (.obj [("null", .str "abc")]) ∧
    showPersonViolations ⟨none, none⟩ =
      [⟨"age", .missingRequiredField⟩] :=
  ⟨(show_person_age_untyped ⟨none, some "abc"⟩).2.1 "abc" rfl rfl,
   (show_person_age_untyped ⟨none, none⟩).2.2 rfl rfl⟩

/-- Claim C8: every uploaded file is accepted without size or content-type
constraints, and the response reports its name, declared content type, and
size in kilobytes computed as byte length over 1024 rounded to two decimal
places. -/
theorem post_image_reports_attributes (f : UploadFile) :
    postImageViolations (some f) = [] ∧
    dispatchPostImage (some f) =
      .success 200 (.obj
        [ ("Filename", .str f.filename),
          ("Format", .str f.contentType),
          ("Size(kb)", .num (sizeKb f.content.length)) ]) :=
  ⟨rfl, rfl⟩

end FastApi
